import Mathlib

/-!
Shallow embedding of `src/server.py` (Semantic-Scholar-MCP-Server).

The server is a façade over the Semantic Scholar Graph HTTP API: each tool
validates its parameters, assembles query parameters or a JSON body, and
delegates to a single request helper.  The embedding mirrors the source:

* Python values for dynamically typed parameters are modelled by `Py`.
* Python dicts built by sequential insertion of distinct keys are modelled as
  association lists assembled by appending entries in source order.
* `str.strip()` is modelled by `pyStrip` (ASCII whitespace), `str.join` by
  `pyJoin`, `urllib.parse.quote` by `urlQuote` (same safe set, UTF-8 percent
  encoding), all written with structural recursion so concrete inputs evaluate.
* A façade call returns `Except String Outbound`: `Except.error msg` is the
  `ValueError` raised before any network activity, `Except.ok r` means exactly
  one HTTP request `r` is issued.  The network itself is a black box, so the
  gateway `_request_json` takes the upstream reply as an `HttpResponse`
  argument; response bodies are modelled as flat string-valued JSON objects,
  which is all the claims need.
-/

/-- A dynamically typed Python value, as far as the validation code in
`server.py` inspects one: `None`, `str`, `int`, `bool`, or a `list`/`tuple`. -/
inductive Py where
  | none
  | str (s : String)
  | int (n : Int)
  | bool (b : Bool)
  | list (xs : List Py)

/-- A value stored in an outgoing query-parameter mapping or JSON body:
the source only ever stores strings, ints and lists of strings. -/
inductive PVal where
  | s (v : String)
  | i (v : Int)
  | strs (v : List String)
deriving DecidableEq, Repr

/-- The `t.Optional[t.Union[str, t.Sequence[str]]]` type of the `fields`,
`fields_of_study` and `authors` parameters. -/
inductive FieldsArg where
  | none
  | str (s : String)
  | seq (xs : List String)
deriving DecidableEq, Repr

/-- The single outbound HTTP request a façade operation hands to
`_request_json`: method, path, query parameters and optional JSON body. -/
structure Outbound where
  method : String
  path : String
  params : List (String × PVal)
  body : Option (List (String × PVal))
deriving DecidableEq, Repr

/-- Python `str.strip()` restricted to ASCII whitespace (the inputs the
claims exercise): drops leading and trailing space characters. -/
def isSpaceChar (c : Char) : Bool :=
  c = ' ' || c = '\t' || c = '\n' || c = '\r' || c = '\x0b' || c = '\x0c'

/-- Model of Python `s.strip()`. -/
def pyStrip (s : String) : String :=
  String.mk (((s.data.dropWhile isSpaceChar).reverse.dropWhile isSpaceChar).reverse)

/-- Model of Python `sep.join(l)`. -/
def pyJoin (sep : String) : List String → String
  | [] => ""
  | [x] => x
  | x :: y :: ys => x ++ sep ++ pyJoin sep (y :: ys)

/-- Hex digit used by percent encoding (uppercase, as `urllib.parse.quote`). -/
def hexDigit (n : Nat) : Char :=
  if n < 10 then Char.ofNat (48 + n) else Char.ofNat (55 + n)

/-- UTF-8 encoding of one character, as byte values. -/
def utf8Bytes (c : Char) : List Nat :=
  let n := c.toNat
  if n < 128 then [n]
  else if n < 2048 then [192 + n / 64, 128 + n % 64]
  else if n < 65536 then [224 + n / 4096, 128 + (n / 64) % 64, 128 + n % 64]
  else [240 + n / 262144, 128 + (n / 4096) % 64, 128 + (n / 64) % 64, 128 + n % 64]

/-- Percent encoding of one unsafe character. -/
def percentEncode (c : Char) : String :=
  String.join ((utf8Bytes c).map (fun b => String.mk ['%', hexDigit (b / 16), hexDigit (b % 16)]))

/-- One character of `urllib.parse.quote` with the default safe set
(letters, digits, `_.-~` and `/`). -/
def quoteChar (c : Char) : String :=
  if c.isAlphanum || c = '_' || c = '.' || c = '-' || c = '~' || c = '/' then String.mk [c]
  else percentEncode c

/-- Model of `urllib.parse.quote`. -/
def urlQuote (s : String) : String :=
  String.join (s.data.map quoteChar)

/-- `_BASE_URL` from `server.py`. -/
def _BASE_URL : String := "https://api.semanticscholar.org/graph/v1"

/-- Model of `path.lstrip("/")`. -/
def lstripSlashes (s : String) : String :=
  String.mk (s.data.dropWhile (fun c => c = '/'))

/-- Model of `_BASE_URL.rstrip("/")`. -/
def rstripSlashes (s : String) : String :=
  String.mk ((s.data.reverse.dropWhile (fun c => c = '/')).reverse)

/-- The request URL built in `_request_json`:
`_BASE_URL.rstrip("/") + "/" + path.lstrip("/")`. -/
def buildUrl (path : String) : String :=
  rstripSlashes _BASE_URL ++ "/" ++ lstripSlashes path

/-- `_normalize_fields` from `server.py`: `None` stays absent, a single string
is returned unchanged, a sequence is stripped entry-wise, blank entries are
dropped, the rest comma-joined, and an empty join collapses to `None`. -/
def _normalize_fields : FieldsArg → Option String
  | FieldsArg.none => Option.none
  | FieldsArg.str s => some s
  | FieldsArg.seq xs =>
    let joined := pyJoin "," ((xs.map pyStrip).filter (fun f => f ≠ ""))
    if joined = "" then Option.none else some joined

/-- Python truthiness of an `Optional[str]`: `None` and `""` are falsy. -/
def truthyStr : Option String → Option String
  | some s => if s = "" then Option.none else some s
  | Option.none => Option.none

/-- Models `if v: d[k] = v` on a string-valued optional: the entry list that
insertion appends to the mapping. -/
def optEntry (k : String) (v : Option String) : List (String × PVal) :=
  match v with
  | some s => [(k, PVal.s s)]
  | Option.none => []

/-- Models `if open_access_pdf is not None: params["openAccessPdf"] = "true" if
open_access_pdf else "false"` in `search_papers`. -/
def oapEntry (v : Option Bool) : List (String × PVal) :=
  match v with
  | some b => [("openAccessPdf", PVal.s (if b then "true" else "false"))]
  | Option.none => []

/-- The element loop shared by `get_papers_batch`, `get_authors_batch` and
`search_papers_bulk`: reject any element that is not a string or strips to
empty, otherwise collect the stripped elements in order. -/
def cleanStrList (items : List Py) (errMsg : String) : Except String (List String) :=
  match items with
  | [] => Except.ok []
  | x :: rest =>
    match x with
    | Py.str s =>
      if pyStrip s = "" then Except.error errMsg
      else
        match cleanStrList rest errMsg with
        | Except.error e => Except.error e
        | Except.ok tl => Except.ok (pyStrip s :: tl)
    | _ => Except.error errMsg

/-- Outcome of reading `config.yaml` in `_load_api_key`: the file may be
absent, unreadable or unparsable (the source catches and discards the error),
or readable with `data["semantic_scholar"]["api_key"]` extracting to `apiKey`
(`Option.none` when either lookup fails or yields a falsy value). -/
inductive ConfigFile where
  | absent
  | unreadable
  | content (apiKey : Option String)
deriving DecidableEq, Repr

/-- The `api_key` drawn from the config file by `_load_api_key`: only a
readable file with a truthy `semantic_scholar.api_key` yields a key, which is
stripped; every failure path falls through to `None`. -/
def configKey : ConfigFile → Option String
  | ConfigFile.content (some k) => if k ≠ "" then some (pyStrip k) else Option.none
  | _ => Option.none

/-- `_load_api_key` from `server.py`: a truthy `SEMANTIC_SCHOLAR_API_KEY`
environment value wins and is stripped; otherwise the config file is
consulted.  `env` is the environment variable at call time. -/
def _load_api_key (env : Option String) (cfg : ConfigFile) : Option String :=
  match env with
  | some e => if e ≠ "" then some (pyStrip e) else configKey cfg
  | Option.none => configKey cfg

/-- The headers built in `_request_json`: `Accept` always, and `x-api-key`
exactly when `_load_api_key` resolves a truthy key at this call. -/
def requestHeaders (env : Option String) (cfg : ConfigFile) : List (String × String) :=
  match _load_api_key env cfg with
  | some k =>
    if k ≠ "" then [("Accept", "application/json"), ("x-api-key", k)]
    else [("Accept", "application/json")]
  | Option.none => [("Accept", "application/json")]

/-- Model of Python `str.upper()` (used on the HTTP method). -/
def pyUpper (s : String) : String :=
  String.mk (s.data.map Char.toUpper)

/-- The request as put on the wire by `_request_json`: upper-cased method,
full URL, parameters, body, and headers resolved afresh from the current
environment and config. -/
structure Request where
  method : String
  url : String
  params : List (String × PVal)
  body : Option (List (String × PVal))
  headers : List (String × String)
deriving DecidableEq, Repr

/-- The wire request `_request_json` issues for a façade-built `Outbound`,
given the environment and config file at the moment of the call. -/
def sentRequest (o : Outbound) (env : Option String) (cfg : ConfigFile) : Request :=
  { method := pyUpper o.method
    url := buildUrl o.path
    params := o.params
    body := o.body
    headers := requestHeaders env cfg }

/-- The upstream reply, as far as `_request_json` inspects it: status code,
the result of attempting `resp.json()` (modelled as a flat string-valued
object, `Option.none` when parsing raises), and `resp.text`. -/
structure HttpResponse where
  status : Nat
  jsonBody : Option (List (String × String))
  text : String
deriving DecidableEq, Repr

/-- Python `str()`/`repr` of a flat string-valued dict, as interpolated into
the error message. -/
def pyReprObj (o : List (String × String)) : String :=
  "\x7b" ++ pyJoin ", " (o.map fun kv => "\x27" ++ kv.1 ++ "\x27: \x27" ++ kv.2 ++ "\x27") ++ "\x7d"

/-- The error payload for a non-2xx reply: the parsed body when `resp.json()`
succeeds, else the fallback `{"message": resp.text}`. -/
def errorPayload (resp : HttpResponse) : String :=
  match resp.jsonBody with
  | some j => pyReprObj j
  | Option.none => pyReprObj [("message", resp.text)]

/-- The f-string `f"Semantic Scholar API error {resp.status_code} for {url}:
{payload}"` raised on a non-2xx reply. -/
def upstreamErrorMessage (status : Nat) (url : String) (payload : String) : String :=
  "Semantic Scholar API error " ++ toString status ++ " for " ++ url ++ ": " ++ payload

/-- `_request_json` from `server.py`, with the network reply passed in:
2xx replies yield the parsed JSON, or `{"raw": resp.text}` when parsing
raises; any other status raises the upstream error message. -/
def _request_json (method path : String) (params : List (String × PVal))
    (json_body : Option (List (String × PVal))) (env : Option String) (cfg : ConfigFile)
    (resp : HttpResponse) : Except String (List (String × String)) :=
  let _req := sentRequest { method := method, path := path, params := params, body := json_body } env cfg
  if 200 ≤ resp.status ∧ resp.status < 300 then
    match resp.jsonBody with
    | some j => Except.ok j
    | Option.none => Except.ok [("raw", resp.text)]
  else
    Except.error (upstreamErrorMessage resp.status (buildUrl path) (errorPayload resp))

/-- Model of `json.dumps(..., ensure_ascii=False)` on a flat string object. -/
def json_dumps (o : List (String × String)) : String :=
  "\x7b" ++ pyJoin ", " (o.map fun kv => "\x22" ++ kv.1 ++ "\x22: \x22" ++ kv.2 ++ "\x22") ++ "\x7d"

/-- A façade call run to completion: a validation error propagates untouched
(no network call), otherwise the single request is made and the gateway
outcome is serialized or its error propagates. -/
def runTool (x : Except String Outbound) (env : Option String) (cfg : ConfigFile)
    (resp : HttpResponse) : Except String String :=
  match x with
  | Except.error e => Except.error e
  | Except.ok o =>
    match _request_json o.method o.path o.params o.body env cfg resp with
    | Except.error e => Except.error e
    | Except.ok j => Except.ok (json_dumps j)

/-- `get_paper` from `server.py`: GET `/paper/{paper_id}` with the id stripped
and URL-escaped; rejects a non-string or blank `paper_id` before any request. -/
def get_paper (paper_id : Py)
    (fields : FieldsArg := FieldsArg.str "title,authors,abstract,year,venue,externalIds,url,referenceCount,citationCount,fieldsOfStudy,openAccessPdf") :
    Except String Outbound :=
  match paper_id with
  | Py.str s =>
    if pyStrip s = "" then Except.error "Parameter \x27paper_id\x27 must be a non-empty string."
    else Except.ok
      { method := "GET"
        path := "/paper/" ++ urlQuote (pyStrip s)
        params := optEntry "fields" (truthyStr (_normalize_fields fields))
        body := Option.none }
  | _ => Except.error "Parameter \x27paper_id\x27 must be a non-empty string."

/-- `get_papers_batch` from `server.py`: POST `/paper/batch` with the stripped
ids in the body; rejects non-list input, an empty list, more than 1000 items,
and any non-string or blank item, before any request. -/
def get_papers_batch (paper_ids : Py)
    (fields : FieldsArg := FieldsArg.str "title,authors,year,venue,externalIds,url") :
    Except String Outbound :=
  match paper_ids with
  | Py.list ids =>
    if ids.length = 0 then
      Except.error "Parameter \x27paper_ids\x27 must be a non-empty list of strings."
    else if ids.length > 1000 then
      Except.error "Parameter \x27paper_ids\x27 cannot exceed 1000 items per request."
    else
      match cleanStrList ids "Every item in \x27paper_ids\x27 must be a non-empty string." with
      | Except.error e => Except.error e
      | Except.ok clean =>
        Except.ok
          { method := "POST"
            path := "/paper/batch"
            params := []
            body := some ([("ids", PVal.strs clean)]
                          ++ optEntry "fields" (truthyStr (_normalize_fields fields))) }
  | _ => Except.error "Parameter \x27paper_ids\x27 must be a non-empty list of strings."

/-- `search_papers` from `server.py`: GET `/paper/search`.  The query is
placed into the parameters verbatim with no validation; limit is clamped to
[1,100], offset floored at 0; optional year, open-access flag and
fields-of-study entries are appended when truthy (the flag when not None). -/
def search_papers (query : String)
    (fields : FieldsArg := FieldsArg.str "title,authors,year,venue,externalIds,url")
    (limit : Int := 25) (offset : Int := 0)
    (year : Option String := Option.none)
    (open_access_pdf : Option Bool := Option.none)
    (fields_of_study : FieldsArg := FieldsArg.none) :
    Except String Outbound :=
  Except.ok
    { method := "GET"
      path := "/paper/search"
      params :=
        [("query", PVal.s query),
         ("limit", PVal.i (max 1 (min limit 100))),
         ("offset", PVal.i (max 0 offset))]
        ++ optEntry "fields" (truthyStr (_normalize_fields fields))
        ++ optEntry "year" (truthyStr year)
        ++ oapEntry open_access_pdf
        ++ optEntry "fieldsOfStudy" (truthyStr (_normalize_fields fields_of_study))
      body := Option.none }

/-- `search_papers_bulk` from `server.py`: POST `/paper/search/bulk` with the
stripped queries, clamped limit and offset in the body; rejects non-list
input, an empty list, more than 100 items, and any non-string or blank item. -/
def search_papers_bulk (queries : Py)
    (fields : FieldsArg := FieldsArg.str "title,authors,year,venue,url")
    (limit : Int := 25) (offset : Int := 0) :
    Except String Outbound :=
  match queries with
  | Py.list qs =>
    if qs.length = 0 then
      Except.error "Parameter \x27queries\x27 must be a non-empty list of strings."
    else if qs.length > 100 then
      Except.error "Parameter \x27queries\x27 cannot exceed 100 items."
    else
      match cleanStrList qs "Every item in \x27queries\x27 must be a non-empty string." with
      | Except.error e => Except.error e
      | Except.ok clean =>
        Except.ok
          { method := "POST"
            path := "/paper/search/bulk"
            params := []
            body := some
              ([("queries", PVal.strs clean),
                ("limit", PVal.i (max 1 (min limit 100))),
                ("offset", PVal.i (max 0 offset))]
               ++ optEntry "fields" (truthyStr (_normalize_fields fields))) }
  | _ => Except.error "Parameter \x27queries\x27 must be a non-empty list of strings."

/-- `search_papers_match` from `server.py`: POST `/paper/search/match` with
the stripped title and a limit clamped to [1,20]; rejects a non-string or
blank title, and a provided negative year. -/
def search_papers_match (title : Py)
    (authors : FieldsArg := FieldsArg.none)
    (year : Option Int := Option.none)
    (venue : Option String := Option.none)
    (fields : FieldsArg := FieldsArg.str "title,authors,year,venue,url,externalIds")
    (limit : Int := 5) :
    Except String Outbound :=
  match title with
  | Py.str ts =>
    if pyStrip ts = "" then Except.error "Parameter \x27title\x27 must be a non-empty string."
    else if (match year with | some y => decide (y < 0) | Option.none => false) then
      Except.error "Parameter \x27year\x27 must be a non-negative integer if provided."
    else
      Except.ok
        { method := "POST"
          path := "/paper/search/match"
          params := []
          body := some
            ([("title", PVal.s (pyStrip ts)), ("limit", PVal.i (max 1 (min limit 20)))]
             ++ optEntry "authors" (truthyStr (_normalize_fields authors))
             ++ (match year with | some y => [("year", PVal.i y)] | Option.none => [])
             ++ optEntry "venue" (truthyStr venue)
             ++ optEntry "fields" (truthyStr (_normalize_fields fields))) }
  | _ => Except.error "Parameter \x27title\x27 must be a non-empty string."

/-- `paper_autocomplete` from `server.py`: GET `/paper/autocomplete` with the
stripped query and a limit clamped to [1,100]; rejects a non-string or blank
query. -/
def paper_autocomplete (query : Py) (limit : Int := 10) : Except String Outbound :=
  match query with
  | Py.str q =>
    if pyStrip q = "" then Except.error "Parameter \x27query\x27 must be a non-empty string."
    else Except.ok
      { method := "GET"
        path := "/paper/autocomplete"
        params := [("query", PVal.s (pyStrip q)), ("limit", PVal.i (max 1 (min limit 100)))]
        body := Option.none }
  | _ => Except.error "Parameter \x27query\x27 must be a non-empty string."

/-- `get_paper_authors` from `server.py`: GET `/paper/{paper_id}/authors`. -/
def get_paper_authors (paper_id : Py)
    (fields : FieldsArg := FieldsArg.str "authors.name,authors.authorId,authors.hIndex,authors.url")
    (limit : Int := 100) (offset : Int := 0) : Except String Outbound :=
  match paper_id with
  | Py.str s =>
    if pyStrip s = "" then Except.error "Parameter \x27paper_id\x27 must be a non-empty string."
    else Except.ok
      { method := "GET"
        path := "/paper/" ++ urlQuote (pyStrip s) ++ "/authors"
        params := [("limit", PVal.i (max 1 (min limit 100))), ("offset", PVal.i (max 0 offset))]
                  ++ optEntry "fields" (truthyStr (_normalize_fields fields))
        body := Option.none }
  | _ => Except.error "Parameter \x27paper_id\x27 must be a non-empty string."

/-- `get_paper_citations` from `server.py`: GET `/paper/{paper_id}/citations`. -/
def get_paper_citations (paper_id : Py)
    (fields : FieldsArg := FieldsArg.str "citingPaper.title,citingPaper.authors,citingPaper.year,citingPaper.url")
    (limit : Int := 100) (offset : Int := 0) : Except String Outbound :=
  match paper_id with
  | Py.str s =>
    if pyStrip s = "" then Except.error "Parameter \x27paper_id\x27 must be a non-empty string."
    else Except.ok
      { method := "GET"
        path := "/paper/" ++ urlQuote (pyStrip s) ++ "/citations"
        params := [("limit", PVal.i (max 1 (min limit 100))), ("offset", PVal.i (max 0 offset))]
                  ++ optEntry "fields" (truthyStr (_normalize_fields fields))
        body := Option.none }
  | _ => Except.error "Parameter \x27paper_id\x27 must be a non-empty string."

/-- `get_paper_references` from `server.py`: GET `/paper/{paper_id}/references`. -/
def get_paper_references (paper_id : Py)
    (fields : FieldsArg := FieldsArg.str "citedPaper.title,citedPaper.authors,citedPaper.year,citedPaper.url")
    (limit : Int := 100) (offset : Int := 0) : Except String Outbound :=
  match paper_id with
  | Py.str s =>
    if pyStrip s = "" then Except.error "Parameter \x27paper_id\x27 must be a non-empty string."
    else Except.ok
      { method := "GET"
        path := "/paper/" ++ urlQuote (pyStrip s) ++ "/references"
        params := [("limit", PVal.i (max 1 (min limit 100))), ("offset", PVal.i (max 0 offset))]
                  ++ optEntry "fields" (truthyStr (_normalize_fields fields))
        body := Option.none }
  | _ => Except.error "Parameter \x27paper_id\x27 must be a non-empty string."

/-- `get_author` from `server.py`: GET `/author/{author_id}`. -/
def get_author (author_id : Py)
    (fields : FieldsArg := FieldsArg.str "name,authorId,affiliations,hIndex,homepage,url,paperCount,citationCount") :
    Except String Outbound :=
  match author_id with
  | Py.str s =>
    if pyStrip s = "" then Except.error "Parameter \x27author_id\x27 must be a non-empty string."
    else Except.ok
      { method := "GET"
        path := "/author/" ++ urlQuote (pyStrip s)
        params := optEntry "fields" (truthyStr (_normalize_fields fields))
        body := Option.none }
  | _ => Except.error "Parameter \x27author_id\x27 must be a non-empty string."

/-- `get_authors_batch` from `server.py`: POST `/author/batch`; same list
validation as the paper batch, bounded to 1000 items. -/
def get_authors_batch (author_ids : Py)
    (fields : FieldsArg := FieldsArg.str "name,authorId,hIndex,url") :
    Except String Outbound :=
  match author_ids with
  | Py.list ids =>
    if ids.length = 0 then
      Except.error "Parameter \x27author_ids\x27 must be a non-empty list of strings."
    else if ids.length > 1000 then
      Except.error "Parameter \x27author_ids\x27 cannot exceed 1000 items."
    else
      match cleanStrList ids "Every item in \x27author_ids\x27 must be a non-empty string." with
      | Except.error e => Except.error e
      | Except.ok clean =>
        Except.ok
          { method := "POST"
            path := "/author/batch"
            params := []
            body := some ([("ids", PVal.strs clean)]
                          ++ optEntry "fields" (truthyStr (_normalize_fields fields))) }
  | _ => Except.error "Parameter \x27author_ids\x27 must be a non-empty list of strings."

/-- `search_authors` from `server.py`: GET `/author/search` with the stripped
query and clamped paging. -/
def search_authors (query : Py)
    (fields : FieldsArg := FieldsArg.str "name,authorId,hIndex,affiliations,url")
    (limit : Int := 25) (offset : Int := 0) : Except String Outbound :=
  match query with
  | Py.str q =>
    if pyStrip q = "" then Except.error "Parameter \x27query\x27 must be a non-empty string."
    else Except.ok
      { method := "GET"
        path := "/author/search"
        params := [("query", PVal.s (pyStrip q)),
                   ("limit", PVal.i (max 1 (min limit 100))),
                   ("offset", PVal.i (max 0 offset))]
                  ++ optEntry "fields" (truthyStr (_normalize_fields fields))
        body := Option.none }
  | _ => Except.error "Parameter \x27query\x27 must be a non-empty string."

/-- `get_author_papers` from `server.py`: GET `/author/{author_id}/papers`
with clamped paging and an optional sort passthrough. -/
def get_author_papers (author_id : Py)
    (fields : FieldsArg := FieldsArg.str "papers.title,papers.year,papers.venue,papers.url")
    (limit : Int := 100) (offset : Int := 0)
    (sort : Option String := Option.none) : Except String Outbound :=
  match author_id with
  | Py.str s =>
    if pyStrip s = "" then Except.error "Parameter \x27author_id\x27 must be a non-empty string."
    else Except.ok
      { method := "GET"
        path := "/author/" ++ urlQuote (pyStrip s) ++ "/papers"
        params := [("limit", PVal.i (max 1 (min limit 100))), ("offset", PVal.i (max 0 offset))]
                  ++ optEntry "sort" (truthyStr sort)
                  ++ optEntry "fields" (truthyStr (_normalize_fields fields))
        body := Option.none }
  | _ => Except.error "Parameter \x27author_id\x27 must be a non-empty string."

/-- `snippet_search` from `server.py`: GET `/snippet/search` with the stripped
query, clamped paging, and optional fields and fields-of-study entries. -/
def snippet_search (query : Py)
    (fields : FieldsArg := FieldsArg.str "paperId,title,authors,year,url,abstract")
    (limit : Int := 25) (offset : Int := 0)
    (fields_of_study : FieldsArg := FieldsArg.none) : Except String Outbound :=
  match query with
  | Py.str q =>
    if pyStrip q = "" then Except.error "Parameter \x27query\x27 must be a non-empty string."
    else Except.ok
      { method := "GET"
        path := "/snippet/search"
        params := [("query", PVal.s (pyStrip q)),
                   ("limit", PVal.i (max 1 (min limit 100))),
                   ("offset", PVal.i (max 0 offset))]
                  ++ optEntry "fields" (truthyStr (_normalize_fields fields))
                  ++ optEntry "fieldsOfStudy" (truthyStr (_normalize_fields fields_of_study))
        body := Option.none }
  | _ => Except.error "Parameter \x27query\x27 must be a non-empty string."

/-- A required string parameter supplied as `None`, the empty string, or a
whitespace-only string (the inputs the validation guards reject). -/
def blankStrArg (p : Py) : Prop :=
  p = Py.none ∨ ∃ s, p = Py.str s ∧ pyStrip s = ""

/-- A list element the batch and bulk loops accept: a string that does not
strip to empty. -/
def goodElem (x : Py) : Prop :=
  ∃ s, x = Py.str s ∧ pyStrip s ≠ ""

/-- The stripped text of an accepted list element. -/
def pyStripOf : Py → String
  | Py.str s => pyStrip s
  | _ => ""

/-- The spec-side field-selector normalization rule for sequence input,
written from the words of the spec: strip, drop blanks, comma-join, collapse
to absent when nothing remains. -/
def specNormalizeSeq (xs : List String) : Option String :=
  match (xs.map pyStrip).filter (fun f => f ≠ "") with
  | [] => Option.none
  | ys => some (pyJoin "," ys)

/-- One string occurs inside another. -/
def containsStr (big small : String) : Prop :=
  ∃ p q, big = p ++ small ++ q

/-- Lookup in an ordered parameter or body mapping: the value under the first
matching key, `Option.none` when the key is absent. -/
def paramVal : List (String × PVal) → String → Option PVal
  | [], _ => Option.none
  | kv :: rest, k => if kv.1 = k then some kv.2 else paramVal rest k

theorem data_append (a b : String) : (a ++ b).data = a.data ++ b.data := by
  cases a; cases b; rfl

theorem append_ne_empty_left {a : String} (b : String) (h : a ≠ "") : a ++ b ≠ "" := by
  intro hc
  apply h
  have hd := congrArg String.data hc
  rw [data_append] at hd
  have ha : a.data = [] := (List.append_eq_nil.mp hd).1
  cases a with
  | mk d =>
    cases ha
    rfl

theorem pyJoin_ne_empty : ∀ {l : List String}, (∀ x ∈ l, x ≠ "") → l ≠ [] → pyJoin "," l ≠ ""
  | [], _, hne => absurd rfl hne
  | [x], h, _ => by
    simpa [pyJoin] using h x (List.mem_singleton.mpr rfl)
  | x :: y :: ys, h, _ => by
    have hx : x ≠ "" := h x (List.mem_cons_self x _)
    show x ++ "," ++ pyJoin "," (y :: ys) ≠ ""
    exact append_ne_empty_left _ (append_ne_empty_left _ hx)

theorem normalize_seq_eq_spec (xs : List String) :
    _normalize_fields (FieldsArg.seq xs) = specNormalizeSeq xs := by
  unfold _normalize_fields specNormalizeSeq
  simp only [ne_eq, decide_not]
  cases h : (xs.map pyStrip).filter (fun f => !decide (f = "")) with
  | nil => simp [h, pyJoin]
  | cons y ys =>
    have hne : pyJoin "," (y :: ys) ≠ "" := by
      apply pyJoin_ne_empty
      · intro x hx
        have hx2 : x ∈ (xs.map pyStrip).filter (fun f => !decide (f = "")) := h ▸ hx
        simpa using (List.mem_filter.mp hx2).2
      · simp
    simp [h, hne]

theorem containsStr_middle (p x q : String) : containsStr (p ++ x ++ q) x :=
  ⟨p, q, rfl⟩

theorem containsStr_self (x : String) : containsStr x x :=
  ⟨"", "", by simp⟩

theorem containsStr_append_left (a : String) {b x : String} (h : containsStr b x) :
    containsStr (a ++ b) x := by
  obtain ⟨p, q, rfl⟩ := h
  exact ⟨a ++ p, q, by simp [String.append_assoc]⟩

theorem containsStr_append_right {a x : String} (b : String) (h : containsStr a x) :
    containsStr (a ++ b) x := by
  obtain ⟨p, q, rfl⟩ := h
  exact ⟨p, q ++ b, by simp [String.append_assoc]⟩

theorem containsStr_trans {a b c : String} (h1 : containsStr a b) (h2 : containsStr b c) :
    containsStr a c := by
  obtain ⟨p, q, rfl⟩ := h1
  obtain ⟨r, t, rfl⟩ := h2
  exact ⟨p ++ r, t ++ q, by simp [String.append_assoc]⟩

theorem containsStr_pyJoin (sep : String) :
    ∀ (l : List String) (x : String), x ∈ l → containsStr (pyJoin sep l) x
  | [], x, h => absurd h (List.not_mem_nil x)
  | [a], x, h => by
    have := List.mem_singleton.mp h
    subst this
    show containsStr (pyJoin sep [x]) x
    simpa [pyJoin] using containsStr_self x
  | a :: b :: bs, x, h => by
    show containsStr (a ++ sep ++ pyJoin sep (b :: bs)) x
    rcases List.mem_cons.mp h with rfl | h2
    · exact containsStr_append_right _ (containsStr_append_right _ (containsStr_self x))
    · exact containsStr_append_left _ (containsStr_pyJoin sep (b :: bs) x h2)

theorem containsStr_pyReprObj {k v : String} {o : List (String × String)}
    (h : (k, v) ∈ o) : containsStr (pyReprObj o) v := by
  have h1 : ("\x27" ++ k ++ "\x27: \x27" ++ v ++ "\x27")
      ∈ o.map (fun kv => "\x27" ++ kv.1 ++ "\x27: \x27" ++ kv.2 ++ "\x27") :=
    List.mem_map_of_mem _ h
  have h2 := containsStr_pyJoin ", " _ _ h1
  have h3 : containsStr ("\x27" ++ k ++ "\x27: \x27" ++ v ++ "\x27") v :=
    ⟨"\x27" ++ k ++ "\x27: \x27", "\x27", by simp [String.append_assoc]⟩
  have h4 : containsStr (pyReprObj o) ("\x27" ++ k ++ "\x27: \x27" ++ v ++ "\x27") := by
    unfold pyReprObj
    exact containsStr_append_right _ (containsStr_append_left _ h2)
  exact containsStr_trans h4 h3

theorem cleanStrList_error {m : String} :
    ∀ {xs : List Py}, (∃ x ∈ xs, ¬ goodElem x) → cleanStrList xs m = Except.error m := by
  intro xs h
  induction xs with
  | nil => simp at h
  | cons a rest ih =>
    by_cases hg : goodElem a
    · obtain ⟨s, rfl, hs⟩ := hg
      have hrest : ∃ x ∈ rest, ¬ goodElem x := by
        obtain ⟨x, hx, hbad⟩ := h
        rcases List.mem_cons.mp hx with rfl | hx2
        · exact absurd ⟨s, rfl, hs⟩ hbad
        · exact ⟨x, hx2, hbad⟩
      simp [cleanStrList, hs, ih hrest]
    · cases a with
      | str s =>
        have hs : pyStrip s = "" := by
          by_contra hne
          exact hg ⟨s, rfl, hne⟩
        simp [cleanStrList, hs]
      | none => simp [cleanStrList]
      | int n => simp [cleanStrList]
      | bool b => simp [cleanStrList]
      | list l => simp [cleanStrList]

theorem cleanStrList_ok {m : String} :
    ∀ {xs : List Py}, (∀ x ∈ xs, goodElem x) → cleanStrList xs m = Except.ok (xs.map pyStripOf) := by
  intro xs h
  induction xs with
  | nil => simp [cleanStrList]
  | cons a rest ih =>
    obtain ⟨s, rfl, hs⟩ := h a (List.mem_cons_self a rest)
    have hrest : ∀ x ∈ rest, goodElem x := fun x hx => h x (List.mem_cons_of_mem _ hx)
    simp [cleanStrList, hs, ih hrest, pyStripOf]

theorem paramVal_cons_self (k : String) (v : PVal) (l : List (String × PVal)) :
    paramVal ((k, v) :: l) k = some v := by
  simp [paramVal]

theorem paramVal_cons_of_ne {k1 k : String} (h : k1 ≠ k) (v : PVal) (l : List (String × PVal)) :
    paramVal ((k1, v) :: l) k = paramVal l k := by
  simp [paramVal, h]

theorem paramVal_append_of_some {l₁ : List (String × PVal)} {k : String} {v : PVal}
    (l₂ : List (String × PVal)) (h : paramVal l₁ k = some v) :
    paramVal (l₁ ++ l₂) k = some v := by
  induction l₁ with
  | nil => simp [paramVal] at h
  | cons a t ih =>
    simp only [paramVal, List.cons_append] at h ⊢
    split at h
    · next heq => simp [heq, h]
    · next heq => simp [heq, ih h]

theorem paramVal_append_of_none {l₁ : List (String × PVal)} {k : String}
    (l₂ : List (String × PVal)) (h : paramVal l₁ k = Option.none) :
    paramVal (l₁ ++ l₂) k = paramVal l₂ k := by
  induction l₁ with
  | nil => simp
  | cons a t ih =>
    simp only [paramVal, List.cons_append] at h ⊢
    split at h
    · simp at h
    · next heq => simp [heq, ih h]

theorem paramVal_optEntry_of_ne {k1 k : String} (h : k1 ≠ k) (v : Option String) :
    paramVal (optEntry k1 v) k = Option.none := by
  cases v <;> simp [optEntry, paramVal, h]

/-- C1 counterexample: `search_papers` performs no validation on its required
`query` parameter — called with the empty string it raises nothing and issues
the network request (query sent verbatim), contradicting the claim that every
façade operation with a required string parameter rejects an empty string
before any network call. -/
theorem C1_counterexample :
    search_papers "" = Except.ok
      { method := "GET"
        path := "/paper/search"
        params := [("query", PVal.s ""), ("limit", PVal.i 25), ("offset", PVal.i 0),
                   ("fields", PVal.s "title,authors,year,venue,externalIds,url")]
        body := Option.none } := by
  rfl

/-- C1 (amended): every façade operation with a required string parameter
except `search_papers` — whose query is passed through unvalidated — rejects
`None`, the empty string, and a whitespace-only string with a `ValueError`
naming the offending parameter, before any network call is issued. -/
theorem C1_required_string_validation (p : Py) (h : blankStrArg p) :
    (∀ fields, get_paper p fields
        = Except.error "Parameter \x27paper_id\x27 must be a non-empty string.") ∧
    (∀ limit, paper_autocomplete p limit
        = Except.error "Parameter \x27query\x27 must be a non-empty string.") ∧
    (∀ fields limit offset, get_paper_authors p fields limit offset
        = Except.error "Parameter \x27paper_id\x27 must be a non-empty string.") ∧
    (∀ fields limit offset, get_paper_citations p fields limit offset
        = Except.error "Parameter \x27paper_id\x27 must be a non-empty string.") ∧
    (∀ fields limit offset, get_paper_references p fields limit offset
        = Except.error "Parameter \x27paper_id\x27 must be a non-empty string.") ∧
    (∀ fields, get_author p fields
        = Except.error "Parameter \x27author_id\x27 must be a non-empty string.") ∧
    (∀ fields limit offset, search_authors p fields limit offset
        = Except.error "Parameter \x27query\x27 must be a non-empty string.") ∧
    (∀ fields limit offset srt, get_author_papers p fields limit offset srt
        = Except.error "Parameter \x27author_id\x27 must be a non-empty string.") ∧
    (∀ fields limit offset fos, snippet_search p fields limit offset fos
        = Except.error "Parameter \x27query\x27 must be a non-empty string.") ∧
    (∀ authors year venue fields limit, search_papers_match p authors year venue fields limit
        = Except.error "Parameter \x27title\x27 must be a non-empty string.") := by
  rcases h with rfl | ⟨s, rfl, hs⟩
  · exact ⟨fun _ => rfl, fun _ => rfl, fun _ _ _ => rfl, fun _ _ _ => rfl, fun _ _ _ => rfl,
      fun _ => rfl, fun _ _ _ => rfl, fun _ _ _ _ => rfl, fun _ _ _ _ => rfl,
      fun _ _ _ _ _ => rfl⟩
  · refine ⟨fun fields => ?_, fun limit => ?_, fun fields limit offset => ?_,
      fun fields limit offset => ?_, fun fields limit offset => ?_, fun fields => ?_,
      fun fields limit offset => ?_, fun fields limit offset srt => ?_,
      fun fields limit offset fos => ?_, fun authors year venue fields limit => ?_⟩
    · simp [get_paper, hs]
    · simp [paper_autocomplete, hs]
    · simp [get_paper_authors, hs]
    · simp [get_paper_citations, hs]
    · simp [get_paper_references, hs]
    · simp [get_author, hs]
    · simp [search_authors, hs]
    · simp [get_author_papers, hs]
    · simp [snippet_search, hs]
    · simp [search_papers_match, hs]

/-- C1 witness: the whitespace-only string is rejected by `get_paper` with the
message naming `paper_id`. -/
theorem C1_required_string_validation_witness :
    blankStrArg (Py.str " ") ∧
    get_paper (Py.str " ") (FieldsArg.str "title")
      = Except.error "Parameter \x27paper_id\x27 must be a non-empty string." :=
  ⟨Or.inr ⟨" ", rfl, by decide⟩,
   (C1_required_string_validation (Py.str " ") (Or.inr ⟨" ", rfl, by decide⟩)).1
     (FieldsArg.str "title")⟩

/-- C2 counterexample: a whitespace-only *single string* does not collapse to
absent — `_normalize_fields` returns a single string unchanged, the value
`" "` is truthy, and the key is placed into the outgoing request, contradicting
the claim that an entirely blank input yields no key. -/
theorem C2_counterexample :
    get_paper (Py.str "x") (FieldsArg.str " ") = Except.ok
      { method := "GET"
        path := "/paper/x"
        params := [("fields", PVal.s " ")]
        body := Option.none } := by
  rfl

/-- C2 (amended): for *sequence* input, normalization strips entries, drops
blank ones, preserves caller order and comma-joins, collapsing to absent when
nothing remains (in particular `["a", " b ", "", "c"]` gives `"a,b,c"` and `[]`
or an all-blank sequence yields no key); a *single string* is passed through
unchanged, so only the empty single string is dropped, not a whitespace-only
one. -/
theorem C2_fields_normalization :
    (∀ xs, _normalize_fields (FieldsArg.seq xs) = specNormalizeSeq xs) ∧
    (∀ s, _normalize_fields (FieldsArg.str s) = some s) ∧
    (_normalize_fields (FieldsArg.seq ["a", " b ", "", "c"]) = some "a,b,c") ∧
    (_normalize_fields (FieldsArg.seq []) = Option.none) ∧
    (∀ xs, (∀ x ∈ xs, pyStrip x = "") → _normalize_fields (FieldsArg.seq xs) = Option.none) ∧
    (∀ s, pyStrip s ≠ "" → get_paper (Py.str s) (FieldsArg.seq [])
        = Except.ok
            { method := "GET"
              path := "/paper/" ++ urlQuote (pyStrip s)
              params := []
              body := Option.none }) := by
  refine ⟨normalize_seq_eq_spec, fun s => rfl, by decide, by decide, ?_, ?_⟩
  · intro xs hall
    have hf : (xs.map pyStrip).filter (fun f => f ≠ "") = [] := by
      rw [List.filter_eq_nil_iff]
      intro a ha
      obtain ⟨y, hy, rfl⟩ := List.mem_map.mp ha
      simp [hall y hy]
    simp only [_normalize_fields, hf, pyJoin]
    rfl
  · intro s hs
    simp [get_paper, hs, _normalize_fields, truthyStr, optEntry, pyJoin]

/-- C2 witness: an all-blank sequence collapses to absent, and with an empty
sequence `get_paper` omits the fields key entirely. -/
theorem C2_fields_normalization_witness :
    _normalize_fields (FieldsArg.seq [" ", ""]) = Option.none ∧
    get_paper (Py.str "x") (FieldsArg.seq [])
      = Except.ok
          { method := "GET"
            path := "/paper/" ++ urlQuote (pyStrip "x")
            params := []
            body := Option.none } :=
  ⟨C2_fields_normalization.2.2.2.2.1 [" ", ""] (by decide),
   C2_fields_normalization.2.2.2.2.2 "x" (by decide)⟩

/-- C3: for every upstream reply with status outside [200,300), `_request_json`
raises an error whose message contains the HTTP status code, the request URL,
and the error payload parsed from the body (falling back to the raw text); any
value of a parsed error object, such as a rate-limit message, appears in the
message, and a façade call run through the gateway fails with that message. -/
theorem C3_upstream_failure (method path : String) (params : List (String × PVal))
    (body : Option (List (String × PVal))) (env : Option String) (cfg : ConfigFile)
    (resp : HttpResponse) (h : resp.status < 200 ∨ 300 ≤ resp.status) :
    _request_json method path params body env cfg resp
      = Except.error (upstreamErrorMessage resp.status (buildUrl path) (errorPayload resp)) ∧
    containsStr (upstreamErrorMessage resp.status (buildUrl path) (errorPayload resp))
      (toString resp.status) ∧
    containsStr (upstreamErrorMessage resp.status (buildUrl path) (errorPayload resp))
      (buildUrl path) ∧
    containsStr (upstreamErrorMessage resp.status (buildUrl path) (errorPayload resp))
      (errorPayload resp) ∧
    (∀ j k v, resp.jsonBody = some j → (k, v) ∈ j →
      containsStr (upstreamErrorMessage resp.status (buildUrl path) (errorPayload resp)) v) ∧
    (∀ ob : Outbound, runTool (Except.ok ob) env cfg resp
      = Except.error (upstreamErrorMessage resp.status (buildUrl ob.path) (errorPayload resp))) := by
  have hcond : ¬(200 ≤ resp.status ∧ resp.status < 300) := by omega
  refine ⟨?_, ?_, ?_, ?_, ?_, ?_⟩
  · simp [_request_json, hcond]
  · exact ⟨"Semantic Scholar API error ",
      " for " ++ buildUrl path ++ ": " ++ errorPayload resp,
      by simp [upstreamErrorMessage, String.append_assoc]⟩
  · exact ⟨"Semantic Scholar API error " ++ toString resp.status ++ " for ",
      ": " ++ errorPayload resp,
      by simp [upstreamErrorMessage, String.append_assoc]⟩
  · exact ⟨"Semantic Scholar API error " ++ toString resp.status ++ " for "
        ++ buildUrl path ++ ": ", "",
      by simp [upstreamErrorMessage, String.append_assoc]⟩
  · intro j k v hj hmem
    have hpay : containsStr (errorPayload resp) v := by
      simp only [errorPayload, hj]
      exact containsStr_pyReprObj hmem
    refine containsStr_trans ?_ hpay
    exact ⟨"Semantic Scholar API error " ++ toString resp.status ++ " for "
        ++ buildUrl path ++ ": ", "",
      by simp [upstreamErrorMessage, String.append_assoc]⟩
  · intro ob
    simp [runTool, _request_json, hcond]

/-- C3 witness: a 429 reply whose body parses to a rate-limit message makes
the `search_papers` pipeline fail with a message containing `429` and the
literal text `rate limited`. -/
theorem C3_upstream_failure_witness :
    (_request_json "GET" "/paper/search" [("query", PVal.s "quantum")] Option.none Option.none
        ConfigFile.absent
        { status := 429, jsonBody := some [("message", "rate limited")], text := "" }
      = Except.error (upstreamErrorMessage 429 (buildUrl "/paper/search")
          (errorPayload
            { status := 429, jsonBody := some [("message", "rate limited")], text := "" }))) ∧
    containsStr (upstreamErrorMessage 429 (buildUrl "/paper/search")
        (errorPayload { status := 429, jsonBody := some [("message", "rate limited")], text := "" }))
      "429" ∧
    containsStr (upstreamErrorMessage 429 (buildUrl "/paper/search")
        (errorPayload { status := 429, jsonBody := some [("message", "rate limited")], text := "" }))
      "rate limited" ∧
    runTool (search_papers "quantum") Option.none ConfigFile.absent
        { status := 429, jsonBody := some [("message", "rate limited")], text := "" }
      = Except.error (upstreamErrorMessage 429 (buildUrl "/paper/search")
          (errorPayload
            { status := 429, jsonBody := some [("message", "rate limited")], text := "" })) := by
  have T := C3_upstream_failure "GET" "/paper/search" [("query", PVal.s "quantum")] Option.none
    Option.none ConfigFile.absent
    { status := 429, jsonBody := some [("message", "rate limited")], text := "" }
    (Or.inr (by decide))
  refine ⟨T.1, T.2.1, ?_, ?_⟩
  · exact T.2.2.2.2.1 [("message", "rate limited")] "message" "rate limited" rfl (by simp)
  · exact T.2.2.2.2.2
      { method := "GET"
        path := "/paper/search"
        params := [("query", PVal.s "quantum"), ("limit", PVal.i 25), ("offset", PVal.i 0),
                   ("fields", PVal.s "title,authors,year,venue,externalIds,url")]
        body := Option.none }

/-- C4: for every list-bearing operation, non-list input, an empty list, a
list over the bound (1000 ids for batch, 100 queries for bulk), or a list with
a non-string or blank element is rejected before any network activity; a valid
two-id batch issues exactly one POST to `/paper/batch` whose body carries
`ids` mapped to the two ids (and, whatever the fields argument, the body leads
with exactly that `ids` entry). -/
theorem C4_list_validation (fields : FieldsArg) (limit offset : Int) :
    (∀ p : Py, (∀ xs, p ≠ Py.list xs) →
       get_papers_batch p fields
         = Except.error "Parameter \x27paper_ids\x27 must be a non-empty list of strings." ∧
       get_authors_batch p fields
         = Except.error "Parameter \x27author_ids\x27 must be a non-empty list of strings." ∧
       search_papers_bulk p fields limit offset
         = Except.error "Parameter \x27queries\x27 must be a non-empty list of strings.") ∧
    (get_papers_batch (Py.list []) fields
       = Except.error "Parameter \x27paper_ids\x27 must be a non-empty list of strings.") ∧
    (get_authors_batch (Py.list []) fields
       = Except.error "Parameter \x27author_ids\x27 must be a non-empty list of strings.") ∧
    (search_papers_bulk (Py.list []) fields limit offset
       = Except.error "Parameter \x27queries\x27 must be a non-empty list of strings.") ∧
    (∀ xs, 1000 < xs.length →
       get_papers_batch (Py.list xs) fields
         = Except.error "Parameter \x27paper_ids\x27 cannot exceed 1000 items per request." ∧
       get_authors_batch (Py.list xs) fields
         = Except.error "Parameter \x27author_ids\x27 cannot exceed 1000 items.") ∧
    (∀ xs, 100 < xs.length →
       search_papers_bulk (Py.list xs) fields limit offset
         = Except.error "Parameter \x27queries\x27 cannot exceed 100 items.") ∧
    (∀ xs, xs.length ≤ 1000 → (∃ x ∈ xs, ¬ goodElem x) →
       get_papers_batch (Py.list xs) fields
         = Except.error "Every item in \x27paper_ids\x27 must be a non-empty string." ∧
       get_authors_batch (Py.list xs) fields
         = Except.error "Every item in \x27author_ids\x27 must be a non-empty string.") ∧
    (∀ xs, xs.length ≤ 100 → (∃ x ∈ xs, ¬ goodElem x) →
       search_papers_bulk (Py.list xs) fields limit offset
         = Except.error "Every item in \x27queries\x27 must be a non-empty string.") ∧
    (∀ id1 id2 : String, pyStrip id1 = id1 → pyStrip id2 = id2 → id1 ≠ "" → id2 ≠ "" →
       get_papers_batch (Py.list [Py.str id1, Py.str id2]) FieldsArg.none
         = Except.ok
             { method := "POST", path := "/paper/batch", params := []
               body := some [("ids", PVal.strs [id1, id2])] } ∧
       ∃ rest, get_papers_batch (Py.list [Py.str id1, Py.str id2]) fields
         = Except.ok
             { method := "POST", path := "/paper/batch", params := []
               body := some (("ids", PVal.strs [id1, id2]) :: rest) }) := by
  refine ⟨?_, rfl, rfl, rfl, ?_, ?_, ?_, ?_, ?_⟩
  · intro p hp
    cases p with
    | none => exact ⟨rfl, rfl, rfl⟩
    | str s => exact ⟨rfl, rfl, rfl⟩
    | int n => exact ⟨rfl, rfl, rfl⟩
    | bool b => exact ⟨rfl, rfl, rfl⟩
    | list xs => exact absurd rfl (hp xs)
  · intro xs h
    have h0 : xs.length ≠ 0 := by omega
    exact ⟨by simp [get_papers_batch, h0, h], by simp [get_authors_batch, h0, h]⟩
  · intro xs h
    have h0 : xs.length ≠ 0 := by omega
    simp [search_papers_bulk, h0, h]
  · intro xs hlen hbad
    obtain ⟨x, hx, hb⟩ := hbad
    have h0 : xs.length ≠ 0 := by
      cases xs with
      | nil => simp at hx
      | cons a t => simp
    have h1 : ¬ xs.length > 1000 := by omega
    constructor
    · simp [get_papers_batch, h0, h1, cleanStrList_error ⟨x, hx, hb⟩]
    · simp [get_authors_batch, h0, h1, cleanStrList_error ⟨x, hx, hb⟩]
  · intro xs hlen hbad
    obtain ⟨x, hx, hb⟩ := hbad
    have h0 : xs.length ≠ 0 := by
      cases xs with
      | nil => simp at hx
      | cons a t => simp
    have h1 : ¬ xs.length > 100 := by omega
    simp [search_papers_bulk, h0, h1, cleanStrList_error ⟨x, hx, hb⟩]
  · intro id1 id2 h1 h2 hn1 hn2
    have hg : ∀ x ∈ [Py.str id1, Py.str id2], goodElem x := by
      intro x hx
      rcases List.mem_cons.mp hx with rfl | hx2
      · exact ⟨id1, rfl, by rw [h1]; exact hn1⟩
      · rcases List.mem_singleton.mp hx2 with rfl
        exact ⟨id2, rfl, by rw [h2]; exact hn2⟩
    constructor
    · have hclean := cleanStrList_ok
        (m := "Every item in \x27paper_ids\x27 must be a non-empty string.") hg
      simp only [List.map, pyStripOf, h1, h2] at hclean
      simp [get_papers_batch, hclean, optEntry, truthyStr, _normalize_fields]
    · refine ⟨optEntry "fields" (truthyStr (_normalize_fields fields)), ?_⟩
      have hclean := cleanStrList_ok
        (m := "Every item in \x27paper_ids\x27 must be a non-empty string.") hg
      simp only [List.map, pyStripOf, h1, h2] at hclean
      simp [get_papers_batch, hclean]

/-- C4 witness: the empty list and a non-list argument are rejected, and the
two-id batch builds the single POST with body ids `["id1","id2"]`. -/
theorem C4_list_validation_witness :
    get_papers_batch (Py.list []) (FieldsArg.str "f")
      = Except.error "Parameter \x27paper_ids\x27 must be a non-empty list of strings." ∧
    get_papers_batch (Py.str "id") (FieldsArg.str "f")
      = Except.error "Parameter \x27paper_ids\x27 must be a non-empty list of strings." ∧
    get_papers_batch (Py.list [Py.str "id1", Py.str "id2"]) FieldsArg.none
      = Except.ok
          { method := "POST", path := "/paper/batch", params := []
            body := some [("ids", PVal.strs ["id1", "id2"])] } := by
  have T := C4_list_validation (FieldsArg.str "f") 25 0
  have T2 := C4_list_validation FieldsArg.none 25 0
  exact ⟨T.2.1, (T.1 (Py.str "id") (fun xs h => Py.noConfusion h)).1,
    (T2.2.2.2.2.2.2.2.2 "id1" "id2" (by decide) (by decide) (by decide) (by decide)).1⟩

/-- C5: for every integer limit and offset handed to the 100-bound operations
`search_papers` and `snippet_search`, the outgoing request carries a limit
clamped into [1,100] (0 becomes 1, 500 becomes 100, in-range values pass
through) and an offset floored at 0 (-5 becomes 0, non-negative values pass
through). -/
theorem C5_limit_offset_clamping (limit offset : Int) :
    ∃ l o : Int,
      1 ≤ l ∧ l ≤ 100 ∧ 0 ≤ o ∧
      (limit = 0 → l = 1) ∧
      (limit = 500 → l = 100) ∧
      (offset = -5 → o = 0) ∧
      (1 ≤ limit → limit ≤ 100 → l = limit) ∧
      (0 ≤ offset → o = offset) ∧
      (∀ q fields year oap fos, ∃ r,
         search_papers q fields limit offset year oap fos = Except.ok r ∧
         paramVal r.params "limit" = some (PVal.i l) ∧
         paramVal r.params "offset" = some (PVal.i o)) ∧
      (∀ s fields fos, pyStrip s ≠ "" → ∃ r,
         snippet_search (Py.str s) fields limit offset fos = Except.ok r ∧
         paramVal r.params "limit" = some (PVal.i l) ∧
         paramVal r.params "offset" = some (PVal.i o)) := by
  refine ⟨max 1 (min limit 100), max 0 offset, by omega, by omega, by omega, by omega,
    by omega, by omega, by omega, by omega, ?_, ?_⟩
  · intro q fields year oap fos
    refine ⟨_, rfl, ?_, ?_⟩
    · apply paramVal_append_of_some
      apply paramVal_append_of_some
      apply paramVal_append_of_some
      apply paramVal_append_of_some
      simp [paramVal]
    · apply paramVal_append_of_some
      apply paramVal_append_of_some
      apply paramVal_append_of_some
      apply paramVal_append_of_some
      simp [paramVal]
  · intro s fields fos hs
    refine ⟨{ method := "GET"
              path := "/snippet/search"
              params := [("query", PVal.s (pyStrip s)),
                         ("limit", PVal.i (max 1 (min limit 100))),
                         ("offset", PVal.i (max 0 offset))]
                        ++ optEntry "fields" (truthyStr (_normalize_fields fields))
                        ++ optEntry "fieldsOfStudy" (truthyStr (_normalize_fields fos))
              body := Option.none }, by simp [snippet_search, hs], ?_, ?_⟩
    · apply paramVal_append_of_some
      apply paramVal_append_of_some
      simp [paramVal]
    · apply paramVal_append_of_some
      apply paramVal_append_of_some
      simp [paramVal]

/-- C5 witness: with limit 0 and offset -5 the issued search request carries
limit 1 and offset 0. -/
theorem C5_limit_offset_clamping_witness :
    ∃ r, search_papers "q" (FieldsArg.str "f") 0 (-5) Option.none Option.none FieldsArg.none
        = Except.ok r ∧
      paramVal r.params "limit" = some (PVal.i 1) ∧
      paramVal r.params "offset" = some (PVal.i 0) := by
  obtain ⟨l, o, _, _, _, h4, _, h6, _, _, hsp, _⟩ := C5_limit_offset_clamping 0 (-5)
  obtain ⟨r, hr, hrl, hro⟩ := hsp "q" (FieldsArg.str "f") Option.none Option.none FieldsArg.none
  refine ⟨r, hr, ?_, ?_⟩
  · rw [← h4 rfl]; exact hrl
  · rw [← h6 rfl]; exact hro

/-- C6: for every upstream reply with status in [200,300), the gateway never
raises — it returns the parsed JSON body when parsing succeeds, and otherwise
a fallback mapping with the raw response text under the key `raw`. -/
theorem C6_success_parse (method path : String) (params : List (String × PVal))
    (body : Option (List (String × PVal))) (env : Option String) (cfg : ConfigFile)
    (resp : HttpResponse) (h : 200 ≤ resp.status ∧ resp.status < 300) :
    (∀ j, resp.jsonBody = some j →
       _request_json method path params body env cfg resp = Except.ok j) ∧
    (resp.jsonBody = Option.none →
       _request_json method path params body env cfg resp = Except.ok [("raw", resp.text)]) ∧
    (∃ v, _request_json method path params body env cfg resp = Except.ok v) := by
  refine ⟨?_, ?_, ?_⟩
  · intro j hj
    simp [_request_json, h, hj]
  · intro hj
    simp [_request_json, h, hj]
  · cases hj : resp.jsonBody with
    | some j => exact ⟨j, by simp [_request_json, h, hj]⟩
    | none => exact ⟨[("raw", resp.text)], by simp [_request_json, h, hj]⟩

/-- C6 witness: a 200 reply whose body fails to parse as JSON yields the
fallback mapping with the raw text under `raw`. -/
theorem C6_success_parse_witness :
    _request_json "GET" "/paper/search" [] Option.none Option.none ConfigFile.absent
        { status := 200, jsonBody := Option.none, text := "not json" }
      = Except.ok [("raw", "not json")] :=
  (C6_success_parse "GET" "/paper/search" [] Option.none Option.none ConfigFile.absent
      { status := 200, jsonBody := Option.none, text := "not json" }
      ⟨by decide, by decide⟩).2.1 rfl

/-- C7: `search_papers_match` rejects a missing or blank title, rejects a
provided negative year, clamps the limit into [1,20], and builds a POST to
`/paper/search/match` carrying the stripped title. -/
theorem C7_search_papers_match (title : Py) (authors : FieldsArg) (year : Option Int)
    (venue : Option String) (fields : FieldsArg) (limit : Int) :
    (blankStrArg title →
       search_papers_match title authors year venue fields limit
         = Except.error "Parameter \x27title\x27 must be a non-empty string.") ∧
    (∀ s y, title = Py.str s → pyStrip s ≠ "" → year = some y → y < 0 →
       search_papers_match title authors year venue fields limit
         = Except.error "Parameter \x27year\x27 must be a non-negative integer if provided.") ∧
    (∀ s, title = Py.str s → pyStrip s ≠ "" → (∀ y, year = some y → 0 ≤ y) →
       ∃ r b, search_papers_match title authors year venue fields limit = Except.ok r ∧
         r.method = "POST" ∧ r.path = "/paper/search/match" ∧ r.body = some b ∧
         paramVal b "title" = some (PVal.s (pyStrip s)) ∧
         (∃ l : Int, paramVal b "limit" = some (PVal.i l) ∧ 1 ≤ l ∧ l ≤ 20 ∧
            (1 ≤ limit → limit ≤ 20 → l = limit))) := by
  refine ⟨?_, ?_, ?_⟩
  · intro h
    rcases h with rfl | ⟨s, rfl, hs⟩
    · rfl
    · simp [search_papers_match, hs]
  · rintro s y rfl hs rfl hy
    simp [search_papers_match, hs, hy]
  · rintro s rfl hs hyear
    cases year with
    | none =>
      refine ⟨{ method := "POST"
                path := "/paper/search/match"
                params := []
                body := some
                  ([("title", PVal.s (pyStrip s)), ("limit", PVal.i (max 1 (min limit 20)))]
                   ++ optEntry "authors" (truthyStr (_normalize_fields authors))
                   ++ []
                   ++ optEntry "venue" (truthyStr venue)
                   ++ optEntry "fields" (truthyStr (_normalize_fields fields))) },
        _, ?_, rfl, rfl, rfl, ?_, ?_⟩
      · simp [search_papers_match, hs]
      · apply paramVal_append_of_some
        apply paramVal_append_of_some
        apply paramVal_append_of_some
        apply paramVal_append_of_some
        simp [paramVal]
      · refine ⟨max 1 (min limit 20), ?_, by omega, by omega, by intro h1 h2; omega⟩
        apply paramVal_append_of_some
        apply paramVal_append_of_some
        apply paramVal_append_of_some
        apply paramVal_append_of_some
        simp [paramVal]
    | some y =>
      have hy : 0 ≤ y := hyear y rfl
      have hc : decide (y < 0) = false := by simpa using not_lt.mpr hy
      refine ⟨{ method := "POST"
                path := "/paper/search/match"
                params := []
                body := some
                  ([("title", PVal.s (pyStrip s)), ("limit", PVal.i (max 1 (min limit 20)))]
                   ++ optEntry "authors" (truthyStr (_normalize_fields authors))
                   ++ [("year", PVal.i y)]
                   ++ optEntry "venue" (truthyStr venue)
                   ++ optEntry "fields" (truthyStr (_normalize_fields fields))) },
        _, ?_, rfl, rfl, rfl, ?_, ?_⟩
      · simp [search_papers_match, hs, hc]
      · apply paramVal_append_of_some
        apply paramVal_append_of_some
        apply paramVal_append_of_some
        apply paramVal_append_of_some
        simp [paramVal]
      · refine ⟨max 1 (min limit 20), ?_, by omega, by omega, by intro h1 h2; omega⟩
        apply paramVal_append_of_some
        apply paramVal_append_of_some
        apply paramVal_append_of_some
        apply paramVal_append_of_some
        simp [paramVal]

/-- C7 witness: a valid title with year -1 is rejected; with no year the
request is the POST carrying the stripped title and a clamped limit. -/
theorem C7_search_papers_match_witness :
    search_papers_match (Py.str "A Title") FieldsArg.none (some (-1)) Option.none
        FieldsArg.none 5
      = Except.error "Parameter \x27year\x27 must be a non-negative integer if provided." ∧
    (∃ r b, search_papers_match (Py.str "A Title") FieldsArg.none Option.none Option.none
        FieldsArg.none 500 = Except.ok r ∧
       r.method = "POST" ∧ r.path = "/paper/search/match" ∧ r.body = some b ∧
       paramVal b "title" = some (PVal.s (pyStrip "A Title")) ∧
       (∃ l : Int, paramVal b "limit" = some (PVal.i l) ∧ 1 ≤ l ∧ l ≤ 20 ∧
          (1 ≤ (500 : Int) → (500 : Int) ≤ 20 → l = 500))) := by
  constructor
  · exact (C7_search_papers_match (Py.str "A Title") FieldsArg.none (some (-1)) Option.none
      FieldsArg.none 5).2.1 "A Title" (-1) rfl (by decide) rfl (by decide)
  · exact (C7_search_papers_match (Py.str "A Title") FieldsArg.none Option.none Option.none
      FieldsArg.none 500).2.2 "A Title" rfl (by decide) (fun y hy => by cases hy)

/-- C8: the credential is a pure function of the environment and config at
the moment of the call (each wire request recomputes its headers from them);
a truthy environment value takes precedence over any config content and is
stripped; absence of both yields no key and no `x-api-key` header; an
unreadable or malformed config file is silently ignored. -/
theorem C8_credential_resolution (env : Option String) (cfg : ConfigFile) :
    (∀ e, env = some e → e ≠ "" → _load_api_key env cfg = some (pyStrip e)) ∧
    (_load_api_key Option.none ConfigFile.absent = Option.none) ∧
    ((env = Option.none ∨ env = some "") →
       _load_api_key env ConfigFile.unreadable = Option.none ∧
       _load_api_key env (ConfigFile.content Option.none) = Option.none ∧
       _load_api_key env ConfigFile.absent = Option.none) ∧
    (_load_api_key env cfg = Option.none →
       requestHeaders env cfg = [("Accept", "application/json")]) ∧
    (∀ k, _load_api_key env cfg = some k → k ≠ "" →
       requestHeaders env cfg = [("Accept", "application/json"), ("x-api-key", k)]) ∧
    (∀ o : Outbound, (sentRequest o env cfg).headers = requestHeaders env cfg) := by
  refine ⟨?_, rfl, ?_, ?_, ?_, fun o => rfl⟩
  · rintro e rfl he
    simp [_load_api_key, he]
  · rintro (rfl | rfl) <;> exact ⟨rfl, rfl, rfl⟩
  · intro h
    simp [requestHeaders, h]
  · intro k h hk
    simp [requestHeaders, h, hk]

/-- C8 witness: a whitespace-padded environment key beats a config key and is
stripped; with no environment value and an unreadable config no credential
header is attached. -/
theorem C8_credential_resolution_witness :
    _load_api_key (some " KEY ") (ConfigFile.content (some "other")) = some "KEY" ∧
    requestHeaders Option.none ConfigFile.unreadable = [("Accept", "application/json")] := by
  constructor
  · exact ((C8_credential_resolution (some " KEY ") (ConfigFile.content (some "other"))).1
      " KEY " rfl (by decide)).trans (by decide)
  · exact (C8_credential_resolution Option.none ConfigFile.unreadable).2.2.2.1 rfl

/-- C9 counterexample: `search_papers` places its required query into the
request verbatim — `" q "` is sent with its surrounding whitespace intact,
contradicting the claim that every required string parameter is stripped
before being placed into the request. -/
theorem C9_counterexample :
    search_papers " q " = Except.ok
      { method := "GET"
        path := "/paper/search"
        params := [("query", PVal.s " q "), ("limit", PVal.i 25), ("offset", PVal.i 0),
                   ("fields", PVal.s "title,authors,year,venue,externalIds,url")]
        body := Option.none } := by
  rfl

/-- C9 (amended): every *validated* required string parameter and list element
is stripped before entering the request — path identifiers are stripped then
URL-escaped, validated query strings are stripped, and each batch id and bulk
query is stripped into the JSON body — while the unvalidated `search_papers`
query is sent verbatim. -/
theorem C9_stripping (s : String) (h : pyStrip s ≠ "") :
    (∀ fields, ∃ r, get_paper (Py.str s) fields = Except.ok r ∧
       r.path = "/paper/" ++ urlQuote (pyStrip s)) ∧
    (∀ limit, ∃ r, paper_autocomplete (Py.str s) limit = Except.ok r ∧
       paramVal r.params "query" = some (PVal.s (pyStrip s))) ∧
    (∀ xs fields, (∀ x ∈ xs, goodElem x) → xs ≠ [] → xs.length ≤ 1000 →
       ∃ r b, get_papers_batch (Py.list xs) fields = Except.ok r ∧ r.body = some b ∧
         paramVal b "ids" = some (PVal.strs (xs.map pyStripOf))) ∧
    (∀ xs fields limit offset, (∀ x ∈ xs, goodElem x) → xs ≠ [] → xs.length ≤ 100 →
       ∃ r b, search_papers_bulk (Py.list xs) fields limit offset = Except.ok r ∧
         r.body = some b ∧
         paramVal b "queries" = some (PVal.strs (xs.map pyStripOf))) := by
  refine ⟨?_, ?_, ?_, ?_⟩
  · intro fields
    refine ⟨{ method := "GET"
              path := "/paper/" ++ urlQuote (pyStrip s)
              params := optEntry "fields" (truthyStr (_normalize_fields fields))
              body := Option.none }, ?_, rfl⟩
    simp [get_paper, h]
  · intro limit
    refine ⟨{ method := "GET"
              path := "/paper/autocomplete"
              params := [("query", PVal.s (pyStrip s)),
                         ("limit", PVal.i (max 1 (min limit 100)))]
              body := Option.none }, ?_, ?_⟩
    · simp [paper_autocomplete, h]
    · simp [paramVal]
  · intro xs fields hg hne hlen
    have h0 : xs.length ≠ 0 := fun hc => hne (List.length_eq_zero.mp hc)
    have h1 : ¬ xs.length > 1000 := by omega
    have hclean := cleanStrList_ok
      (m := "Every item in \x27paper_ids\x27 must be a non-empty string.") hg
    refine ⟨{ method := "POST"
              path := "/paper/batch"
              params := []
              body := some ([("ids", PVal.strs (xs.map pyStripOf))]
                ++ optEntry "fields" (truthyStr (_normalize_fields fields))) },
      [("ids", PVal.strs (xs.map pyStripOf))]
        ++ optEntry "fields" (truthyStr (_normalize_fields fields)), ?_, rfl, ?_⟩
    · simp [get_papers_batch, h0, h1, hclean]
    · apply paramVal_append_of_some
      simp [paramVal]
  · intro xs fields limit offset hg hne hlen
    have h0 : xs.length ≠ 0 := fun hc => hne (List.length_eq_zero.mp hc)
    have h1 : ¬ xs.length > 100 := by omega
    have hclean := cleanStrList_ok
      (m := "Every item in \x27queries\x27 must be a non-empty string.") hg
    refine ⟨{ method := "POST"
              path := "/paper/search/bulk"
              params := []
              body := some ([("queries", PVal.strs (xs.map pyStripOf)),
                  ("limit", PVal.i (max 1 (min limit 100))),
                  ("offset", PVal.i (max 0 offset))]
                ++ optEntry "fields" (truthyStr (_normalize_fields fields))) },
      [("queries", PVal.strs (xs.map pyStripOf)),
       ("limit", PVal.i (max 1 (min limit 100))),
       ("offset", PVal.i (max 0 offset))]
        ++ optEntry "fields" (truthyStr (_normalize_fields fields)), ?_, rfl, ?_⟩
    · simp [search_papers_bulk, h0, h1, hclean]
    · apply paramVal_append_of_some
      simp [paramVal]

/-- C9 witness: a whitespace-padded autocomplete query is stripped before
being placed into the request. -/
theorem C9_stripping_witness :
    ∃ r, paper_autocomplete (Py.str " q ") 10 = Except.ok r ∧
      paramVal r.params "query" = some (PVal.s (pyStrip " q ")) :=
  (C9_stripping " q " (by decide)).2.1 10

/-- C10: in `search_papers` a boolean `open_access_pdf` is serialized as the
lowercase string under `openAccessPdf` — `false` is sent as `"false"`, not
omitted — and only `None` omits the key. -/
theorem C10_open_access_pdf (q : String) (fields : FieldsArg) (limit offset : Int)
    (year : Option String) (fos : FieldsArg) :
    (∀ b : Bool, ∃ r, search_papers q fields limit offset year (some b) fos = Except.ok r ∧
       paramVal r.params "openAccessPdf" = some (PVal.s (if b then "true" else "false"))) ∧
    (∃ r, search_papers q fields limit offset year Option.none fos = Except.ok r ∧
       paramVal r.params "openAccessPdf" = Option.none) := by
  have hbase : paramVal [("query", PVal.s q), ("limit", PVal.i (max 1 (min limit 100))),
      ("offset", PVal.i (max 0 offset))] "openAccessPdf" = Option.none := by
    simp [paramVal]
  have hF : paramVal (optEntry "fields" (truthyStr (_normalize_fields fields)))
      "openAccessPdf" = Option.none := paramVal_optEntry_of_ne (by decide) _
  have hY : paramVal (optEntry "year" (truthyStr year)) "openAccessPdf" = Option.none :=
    paramVal_optEntry_of_ne (by decide) _
  have hZ : paramVal (optEntry "fieldsOfStudy" (truthyStr (_normalize_fields fos)))
      "openAccessPdf" = Option.none := paramVal_optEntry_of_ne (by decide) _
  have h1 : paramVal ([("query", PVal.s q), ("limit", PVal.i (max 1 (min limit 100))),
      ("offset", PVal.i (max 0 offset))]
      ++ optEntry "fields" (truthyStr (_normalize_fields fields))) "openAccessPdf"
      = Option.none :=
    (paramVal_append_of_none _ hbase).trans hF
  have h2 : paramVal (([("query", PVal.s q), ("limit", PVal.i (max 1 (min limit 100))),
      ("offset", PVal.i (max 0 offset))]
      ++ optEntry "fields" (truthyStr (_normalize_fields fields)))
      ++ optEntry "year" (truthyStr year)) "openAccessPdf" = Option.none :=
    (paramVal_append_of_none _ h1).trans hY
  constructor
  · intro b
    refine ⟨_, rfl, ?_⟩
    apply paramVal_append_of_some
    exact (paramVal_append_of_none (oapEntry (some b)) h2).trans (by simp [oapEntry, paramVal])
  · refine ⟨_, rfl, ?_⟩
    have h3 : paramVal ((([("query", PVal.s q), ("limit", PVal.i (max 1 (min limit 100))),
        ("offset", PVal.i (max 0 offset))]
        ++ optEntry "fields" (truthyStr (_normalize_fields fields)))
        ++ optEntry "year" (truthyStr year)) ++ oapEntry Option.none) "openAccessPdf"
        = Option.none :=
      paramVal_append_of_none _ h2
    exact (paramVal_append_of_none _ h3).trans hZ
